import Mathlib

/-!
Verification of the PHI linter (scripts/phi_linter.py): a shallow embedding of
its pattern catalog, per-line regular-expression scanning, false-positive
filtering, directory scanning, report generation and exit-code selection,
together with theorems settling the specification's claims about them.

Python's `re` module is embedded by a small backtracking matcher covering
exactly the constructs the catalog uses (single-character classes with greedy
counted quantifiers, ordered alternation groups of such items, and the word
boundary assertion), with `re.IGNORECASE` semantics applied at every class.
-/

/-- Whitespace set of Python strings, as used by str.strip, str.lstrip and the
regex class \s (all inputs here are ASCII). -/
def isPyWhitespace (c : Char) : Bool :=
  c = ' ' || c = '\t' || c = '\n' || c = '\r' || c = '\x0b' || c = '\x0c'

/-- Python str.lstrip with no argument: drop leading whitespace. -/
def pyLstrip (x : List Char) : List Char := x.dropWhile isPyWhitespace

/-- Python str.rstrip with no argument: drop trailing whitespace. -/
def pyRstrip : List Char → List Char
  | [] => []
  | c :: t =>
    match pyRstrip t with
    | [] => if isPyWhitespace c then [] else [c]
    | r => c :: r

/-- Python str.strip with no argument: drop whitespace at both ends. -/
def strStrip (s : String) : String := String.mk (pyRstrip (pyLstrip s.data))

/-- Python str.lstrip on strings. -/
def strLstrip (s : String) : String := String.mk (pyLstrip s.data)

/-- Python str.lower for the ASCII strings handled here. -/
def strLower (s : String) : String := String.mk (s.data.map Char.toLower)

/-- Python str.startswith. -/
def strStartswith (s pre : String) : Bool := pre.data.isPrefixOf s.data

/-- Python substring containment (the binary `in` operator) on character
lists: some suffix of the haystack starts with the needle. -/
def containsSub : List Char → List Char → Bool
  | [], needle => needle.isPrefixOf []
  | hay@(_ :: t), needle => needle.isPrefixOf hay || containsSub t needle

/-- Python substring containment (the binary `in` operator) on strings. -/
def strContains (hay sub : String) : Bool := containsSub hay.data sub.data

/-- Final path component, after the last slash: pathlib Path.name. -/
def path_name (p : String) : String :=
  String.mk ((p.data.reverse.takeWhile (fun c => c != '/')).reverse)

/-- Extension of the final component: pathlib Path.suffix, the slice of the
name from its last dot, or empty when the name has no dot, begins with its
only dot, or ends with its last dot. -/
def path_suffix (p : String) : String :=
  let name := (path_name p).data
  let after := (name.reverse.takeWhile (fun c => c != '.')).reverse
  let i := name.length - after.length - 1
  if name.contains '.' && decide (0 < i) && decide (i < name.length - 1) then
    String.mk (name.drop i)
  else ""

/-! ### The regular-expression engine

One simple item is a single-character class under a counted greedy quantifier
(`lo` to `hi` repetitions, `none` standing for unbounded) or the zero-width
word-boundary assertion `\b`.  A full item is a simple item or an ordered
alternation group `(?:A|B|...)` whose branches are sequences of simple items —
the only group shape the catalog contains. -/

inductive SItem where
  | srep (p : Char → Bool) (lo : Nat) (hi : Option Nat)
  | swb

inductive RItem where
  | simple (it : SItem)
  | alt (alts : List (List SItem))

/-- Case-insensitive class test: re.IGNORECASE accepts a character when the
class as written accepts it or either of its ASCII case versions. -/
def icase (p : Char → Bool) (c : Char) : Bool :=
  p c || p c.toLower || p c.toUpper

/-- Python regex word character, the set matched by \w and consulted by \b. -/
def isWordChar (c : Char) : Bool := c.isAlphanum || c = '_'

/-- Whether the character at index j is a word character (false out of range). -/
def wordAt (s : List Char) (j : Nat) : Bool := isWordChar (s.getD j ' ')

/-- The \b assertion holds at index i when word-membership changes there. -/
def wordBoundary (s : List Char) (i : Nat) : Bool :=
  (if i = 0 then false else wordAt s (i - 1)) != wordAt s i

/-- Length of the longest run of characters of s starting at i that satisfy p,
capped at cap. -/
def runLen (s : List Char) (p : Char → Bool) (i : Nat) : Nat → Nat
  | 0 => 0
  | cap + 1 =>
    if i < s.length && p (s.getD i '\x00') then runLen s p (i + 1) cap + 1 else 0

/-- First succeeding alternative, in order. -/
def firstSome : List α → (α → Option β) → Option β
  | [], _ => none
  | x :: t, f => match f x with
    | some b => some b
    | none => firstSome t f

/-- Candidate repetition counts of a greedy quantifier, in the order a
backtracking engine tries them: from the longest feasible run m down to lo. -/
def countsDesc (lo m : Nat) : List Nat :=
  (List.range (m + 1 - lo)).map (fun d => m - d)

/-- Backtracking matcher: match the item sequence against s at index i, then
hand the end index to the continuation k; the first success in Python's
preference order (alternation branches left to right, greedy quantifiers
longest first) is returned.  Fuel bounds the number of items processed along
one path and is spent once per item. -/
def matchItems (s : List Char) : Nat → List RItem → Nat → (Nat → Option Nat) → Option Nat
  | 0, _, _, _ => none
  | _ + 1, [], i, k => k i
  | fuel + 1, .simple .swb :: rest, i, k =>
    if wordBoundary s i then matchItems s fuel rest i k else none
  | fuel + 1, .simple (.srep p lo hi) :: rest, i, k =>
    let cap := match hi with
      | some h => h
      | none => s.length - i
    let m := runLen s (icase p) i cap
    if m < lo then none
    else firstSome (countsDesc lo m) (fun j => matchItems s fuel rest (i + j) k)
  | fuel + 1, .alt alts :: rest, i, k =>
    firstSome alts (fun a => matchItems s fuel (a.map RItem.simple ++ rest) i k)

/-- Fuel ample for one path through the pattern: alternation groups count one
step plus their longest branch, and one extra step closes the sequence. -/
def itemFuel : RItem → Nat
  | .simple _ => 1
  | .alt alts => 1 + (alts.map (fun a => a.length)).foldr max 0

def patFuel (pat : List RItem) : Nat := pat.foldr (fun it a => itemFuel it + a) 1

/-- Anchored match attempt of a pattern at index i of s; some e means the
match ends at e, Python's re picking this same end. -/
def matchAt (s : List Char) (pat : List RItem) (i : Nat) : Option Nat :=
  matchItems s (patFuel pat) pat i some

/-- Scanning loop of re.finditer: try each start index left to right, emit the
matched substring on success, and resume at the match end (one step forward on
an empty match). -/
def finditerAux (s : List Char) (pat : List RItem) : Nat → Nat → List String
  | 0, _ => []
  | fuel + 1, i =>
    if i > s.length then []
    else
      match matchAt s pat i with
      | some e =>
        String.mk ((s.drop i).take (e - i)) ::
          finditerAux s pat fuel (if i < e then e else i + 1)
      | none => finditerAux s pat fuel (i + 1)

/-- All non-overlapping matches of pat in line: re.finditer(pat, line,
re.IGNORECASE), as the list of matched substrings match.group(). -/
def finditer (pat : List RItem) (line : String) : List String :=
  finditerAux line.data pat (line.data.length + 1) 0

/-! ### The pattern catalog

Construction helpers spelling the regex source text of phi_linter.py:
`lit c` is a literal character, `lits "ab"` a literal word, `cls p` a
single-character class, `rep p lo hi` a quantified class, `wb` the \b
assertion; `slit`, `slits` and `srep` build the same items inside an
alternation group. -/

def rng (a b c : Char) : Bool := a.toNat ≤ c.toNat && c.toNat ≤ b.toNat

def oneOf (cs : String) (c : Char) : Bool := cs.data.contains c

def isDigitCh (c : Char) : Bool := c.isDigit

def slit (c : Char) : SItem := .srep (fun x => x = c) 1 (some 1)

def slits (w : String) : List SItem := w.data.map slit

def srep (p : Char → Bool) (lo : Nat) (hi : Option Nat) : SItem := .srep p lo hi

def lit (c : Char) : RItem := .simple (slit c)

def lits (w : String) : List RItem := w.data.map lit

def cls (p : Char → Bool) : RItem := .simple (.srep p 1 (some 1))

def rep (p : Char → Bool) (lo : Nat) (hi : Option Nat) : RItem := .simple (.srep p lo hi)

def wb : RItem := .simple .swb

def dotCh (c : Char) : Bool := c = '.'

def colonCh (c : Char) : Bool := c = ':'

def alnumDash (c : Char) : Bool :=
  rng 'A' 'Z' c || rng 'a' 'z' c || rng '0' '9' c || c = '-'

def alphaSp (c : Char) : Bool := rng 'A' 'Z' c || rng 'a' 'z' c || isPyWhitespace c

def alnumSp (c : Char) : Bool :=
  rng 'A' 'Z' c || rng 'a' 'z' c || rng '0' '9' c || isPyWhitespace c

def emailLocal (c : Char) : Bool :=
  rng 'A' 'Z' c || rng 'a' 'z' c || rng '0' '9' c || oneOf "._%+-" c

def emailDomain (c : Char) : Bool :=
  rng 'A' 'Z' c || rng 'a' 'z' c || rng '0' '9' c || oneOf ".-" c

def emailTld (c : Char) : Bool := rng 'A' 'Z' c || c = '|' || rng 'a' 'z' c

def spDash (c : Char) : Bool := isPyWhitespace c || c = '-'

def slashDash (c : Char) : Bool := oneOf "/-" c

/-- PHILinter._load_phi_patterns: the catalog, one entry per category in the
source dictionary's insertion order, each holding the category's rule list in
source order; every rule is the translation of the regex literal at the same
position in phi_linter.py. -/
def phi_patterns : List (String × List (List RItem)) := [
  ("phone_numbers", [
    [wb, cls (rng '6' '9'), rep isDigitCh 9 (some 9), wb],
    lits "+91" ++ [cls (rng '6' '9'), rep isDigitCh 9 (some 9), wb],
    [wb] ++ lits "91" ++ [cls (rng '6' '9'), rep isDigitCh 9 (some 9), wb],
    [lit '(', rep isDigitCh 3 (some 3), lit ')', rep isPyWhitespace 0 none,
      rep isDigitCh 3 (some 3), lit '-', rep isDigitCh 4 (some 4)],
    [rep isDigitCh 3 (some 3), lit '-', rep isDigitCh 3 (some 3), lit '-',
      rep isDigitCh 4 (some 4)],
    [rep isDigitCh 10 (some 10)]]),
  ("email_addresses", [
    [wb, rep emailLocal 1 none, lit '@', rep emailDomain 1 none, lit '.',
      rep emailTld 2 none, wb]]),
  ("names", [
    [wb, .alt [slits "Dr" ++ [srep dotCh 0 (some 1)], slits "Doctor"],
      rep isPyWhitespace 1 none, cls (rng 'A' 'Z'), rep (rng 'a' 'z') 1 none,
      rep isPyWhitespace 1 none, cls (rng 'A' 'Z'), rep (rng 'a' 'z') 1 none, wb],
    [wb, .alt [slits "Patient", slits "Pt" ++ [srep dotCh 0 (some 1)]],
      rep isPyWhitespace 1 none, cls (rng 'A' 'Z'), rep (rng 'a' 'z') 1 none,
      rep isPyWhitespace 1 none, cls (rng 'A' 'Z'), rep (rng 'a' 'z') 1 none, wb],
    [wb, cls (rng 'A' 'Z'), rep (rng 'a' 'z') 1 none, rep isPyWhitespace 1 none,
      cls (rng 'A' 'Z'), rep (rng 'a' 'z') 1 none, rep isPyWhitespace 1 none,
      cls (rng 'A' 'Z'), rep (rng 'a' 'z') 1 none, wb]]),
  ("medical_ids", [
    [wb] ++ lits "MRN" ++ [rep isPyWhitespace 0 none, rep colonCh 0 (some 1),
      rep isPyWhitespace 0 none, rep alnumDash 1 none, wb],
    [wb] ++ lits "Patient" ++ [rep isPyWhitespace 0 none] ++ lits "ID" ++
      [rep isPyWhitespace 0 none, rep colonCh 0 (some 1),
        rep isPyWhitespace 0 none, rep alnumDash 1 none, wb],
    [wb] ++ lits "Encounter" ++ [rep isPyWhitespace 0 none] ++ lits "ID" ++
      [rep isPyWhitespace 0 none, rep colonCh 0 (some 1),
        rep isPyWhitespace 0 none, rep alnumDash 1 none, wb],
    [wb] ++ lits "Clinic" ++ [rep isPyWhitespace 0 none] ++ lits "ID" ++
      [rep isPyWhitespace 0 none, rep colonCh 0 (some 1),
        rep isPyWhitespace 0 none, rep alnumDash 1 none, wb]]),
  ("addresses", [
    [wb, rep isDigitCh 1 none, rep isPyWhitespace 1 none, rep alphaSp 1 none,
      .alt [slits "Street", slits "Road", slits "Avenue", slits "Lane",
        slits "Colony", slits "Nagar", slits "Pur", slits "Pura"], wb],
    [wb, rep alphaSp 1 none, lit ',', rep isPyWhitespace 0 none,
      rep alphaSp 1 none, lit ',', rep isPyWhitespace 0 none,
      rep isDigitCh 6 (some 6), wb]]),
  ("medical_terms", [
    [wb, .alt [slits "Patient", slits "Pt" ++ [srep dotCh 0 (some 1)]],
      rep isPyWhitespace 0 none, rep colonCh 0 (some 1),
      rep isPyWhitespace 0 none, rep alnumSp 1 none],
    [wb, .alt [slits "Diagnosis", slits "Dx" ++ [srep dotCh 0 (some 1)]],
      rep isPyWhitespace 0 none, rep colonCh 0 (some 1),
      rep isPyWhitespace 0 none, rep alnumSp 1 none],
    [wb, .alt [slits "Symptoms", slits "Sx" ++ [srep dotCh 0 (some 1)]],
      rep isPyWhitespace 0 none, rep colonCh 0 (some 1),
      rep isPyWhitespace 0 none, rep alnumSp 1 none],
    [wb, .alt [slits "Medication", slits "Meds" ++ [srep dotCh 0 (some 1)]],
      rep isPyWhitespace 0 none, rep colonCh 0 (some 1),
      rep isPyWhitespace 0 none, rep alnumSp 1 none]]),
  ("dates_with_context", [
    [wb, .alt [slits "DOB", slits "Birth"], rep isPyWhitespace 0 none,
      rep colonCh 0 (some 1), rep isPyWhitespace 0 none, rep isDigitCh 1 (some 2),
      cls slashDash, rep isDigitCh 1 (some 2), cls slashDash,
      rep isDigitCh 2 (some 4)],
    [wb, .alt [slits "Admission", slits "Discharge"], rep isPyWhitespace 0 none,
      rep colonCh 0 (some 1), rep isPyWhitespace 0 none, rep isDigitCh 1 (some 2),
      cls slashDash, rep isDigitCh 1 (some 2), cls slashDash,
      rep isDigitCh 2 (some 4)]]),
  ("ssn_patterns", [
    [wb, rep isDigitCh 3 (some 3), lit '-', rep isDigitCh 2 (some 2), lit '-',
      rep isDigitCh 4 (some 4), wb],
    [wb, rep isDigitCh 9 (some 9), wb]]),
  ("credit_cards", [
    [wb, rep isDigitCh 4 (some 4), rep spDash 0 (some 1), rep isDigitCh 4 (some 4),
      rep spDash 0 (some 1), rep isDigitCh 4 (some 4), rep spDash 0 (some 1),
      rep isDigitCh 4 (some 4), wb]]),
  ("common_phi_terms", [
    [wb, .alt [slits "PHI", slits "PII", slits "Personal", slits "Health",
      slits "Medical"], rep isPyWhitespace 0 none, rep alnumSp 0 none, wb],
    [wb, .alt [slits "Confidential", slits "Sensitive", slits "Private"],
      rep isPyWhitespace 0 none, rep alnumSp 0 none, wb]])]

/-! ### The linter

A file is identified by its path string; its name and extension are derived as
pathlib derives them.  File content reaches scan_file as the outcome of the
read: a list of lines, or an error message when opening or reading raised. -/

/-- One violation as scan_file records it: line number, category, message. -/
abbrev Violation : Type := Nat × String × String

/-- First false-positive test of PHILinter._is_false_positive: the line,
stripped, starts with a line-comment marker. -/
def comment_cond (line : String) : Bool :=
  strStartswith (strStrip line) "//" || strStartswith (strStrip line) "#"

/-- PHILinter._is_false_positive: the five sequential tests of the source,
each returning True as soon as it holds. -/
def is_false_positive (mtch line : String) (file_path : String) : Bool :=
  if comment_cond line then true
  else if strContains (strLower (path_name file_path)) "test" &&
      (["test", "example", "sample"].any (fun word => strContains (strLower mtch) word)) then true
  else if ([".yml", ".yaml", ".json", ".xml"].contains (path_suffix file_path)) &&
      (["config", "example", "template"].any (fun word => strContains (strLower mtch) word)) then true
  else if strContains line "\\b" || strContains line "\\d" || strContains line "\\w" then true
  else if strContains (strLower line) "pattern" || strContains (strLower line) "regex" ||
      strContains (strLower line) "format" then true
  else false

/-- Inner loops of PHILinter.scan_file for one line: for every category of the
catalog, every rule of the category and every finditer match of the rule, skip
the match when the filter calls it a false positive, and otherwise append the
violation triple with its formatted message. -/
def scan_line (file_path : String) (line_num : Nat) (line : String)
    (acc : List Violation) : List Violation :=
  phi_patterns.foldl (fun acc cp =>
    cp.2.foldl (fun acc pat =>
      (finditer pat line).foldl (fun acc m =>
        if is_false_positive m line file_path then acc
        else acc ++ [(line_num, cp.1, "Potential " ++ cp.1 ++ ": " ++ m)]) acc) acc) acc

/-- PHILinter.scan_file: on a successful read, run the line loop over the
lines enumerated from 1; when opening or reading raised, the except branch
prints an error and the violations gathered so far — none — are returned. -/
def scan_file (file_path : String) (content : Except String (List String)) :
    List Violation :=
  match content with
  | .error _ => []
  | .ok lines =>
    (List.enumFrom 1 lines).foldl (fun acc nl => scan_line file_path nl.1 nl.2 acc) []

def excluded_dirs : List String :=
  [".git", ".gradle", "build", "node_modules", ".idea",
   "venv", "__pycache__", ".pytest_cache", "target"]

def excluded_files : List String :=
  ["phi_linter.py", "phi_violations.txt", ".gitignore"]

/-- File types scan_directory accepts. -/
def scanned_suffixes : List String :=
  [".kt", ".java", ".xml", ".json", ".md", ".txt", ".yml", ".yaml"]

/-- One file of the scanned tree, in the order rglob yields it, with the
outcome of reading it. -/
structure FSEntry where
  path : String
  content : Except String (List String)

/-- Violation line of PHILinter.scan_directory: "{file_path}:{line_num} - {message}". -/
def format_violation (path : String) (v : Violation) : String :=
  path ++ ":" ++ toString v.1 ++ " - " ++ v.2.2

/-- PHILinter.scan_directory over the files of the tree: skip a file whose
path string contains an excluded-directory token, whose name is an excluded
file, or whose extension is not scanned; scan every other file and append its
formatted violations to the accumulated state self.violations. -/
def scan_directory (entries : List FSEntry) (violations : List String) : List String :=
  entries.foldl (fun vs e =>
    if excluded_dirs.any (fun excluded => strContains e.path excluded) then vs
    else if excluded_files.contains (path_name e.path) then vs
    else if !(scanned_suffixes.contains (path_suffix e.path)) then vs
    else vs ++ (scan_file e.path e.content).map (fun v => format_violation e.path v)) violations

/-- PHILinter.generate_report: the text written to the report file. -/
def generate_report (violations : List String) : String :=
  if violations = [] then
    "No PHI violations detected.\n"
  else
    "PHI Violations Detected:\n" ++ String.mk (List.replicate 50 '=') ++ "\n\n" ++
      String.join (violations.map (fun v => v ++ "\n")) ++
      "\nTotal violations: " ++ toString violations.length ++ "\n"

/-- Outcome of PHILinter.run: the returned exit code, which main passes to
sys.exit, and the final accumulated violation list. -/
structure RunResult where
  exit_code : Nat
  violations : List String

/-- PHILinter.run on a fresh linter: 1 at once when the root directory does
not exist; otherwise scan the tree into the empty violation state and return
1 when violations were found and 0 when none were. -/
def run (root_exists : Bool) (entries : List FSEntry) : RunResult :=
  if !root_exists then { exit_code := 1, violations := [] }
  else
    let vs := scan_directory entries []
    { exit_code := if vs ≠ [] then 1 else 0, violations := vs }

/-! ### The claims of the specification, as written

For the refinement claims C2 and C10 the filter is restated from the
specification's words, to be compared with the definition taken from the
source: fp_claimed follows claim C2 letter by letter (its third condition
tests the matched text as written), fp_amended is the same chain with that
containment test applied to the lowercased matched text. -/

/-- Claim C2 as stated: reject when the line trimmed of leading whitespace
starts with a comment marker; or the file name contains "test"
(case-insensitively) and the match contains "test", "example" or "sample"
(case-insensitively); or the extension is a configuration one and the match
contains "config", "example" or "template" (as written, literally); or the
line contains \b, \d or \w; or the line contains "pattern", "regex" or
"format" (case-insensitively). -/
def fp_claimed (mtch line : String) (file_path : String) : Bool :=
  (strStartswith (strLstrip line) "//" || strStartswith (strLstrip line) "#") ||
  (strContains (strLower (path_name file_path)) "test" &&
    (strContains (strLower mtch) "test" || strContains (strLower mtch) "example" ||
      strContains (strLower mtch) "sample")) ||
  (([".yml", ".yaml", ".json", ".xml"].contains (path_suffix file_path)) &&
    (strContains mtch "config" || strContains mtch "example" ||
      strContains mtch "template")) ||
  (strContains line "\\b" || strContains line "\\d" || strContains line "\\w") ||
  (strContains (strLower line) "pattern" || strContains (strLower line) "regex" ||
    strContains (strLower line) "format")

/-- Claim C2 amended: identical to fp_claimed except that the third
condition's containment tests are case-insensitive, applied to the lowercased
matched text. -/
def fp_amended (mtch line : String) (file_path : String) : Bool :=
  (strStartswith (strLstrip line) "//" || strStartswith (strLstrip line) "#") ||
  (strContains (strLower (path_name file_path)) "test" &&
    (strContains (strLower mtch) "test" || strContains (strLower mtch) "example" ||
      strContains (strLower mtch) "sample")) ||
  (([".yml", ".yaml", ".json", ".xml"].contains (path_suffix file_path)) &&
    (strContains (strLower mtch) "config" || strContains (strLower mtch) "example" ||
      strContains (strLower mtch) "template")) ||
  (strContains line "\\b" || strContains line "\\d" || strContains line "\\w") ||
  (strContains (strLower line) "pattern" || strContains (strLower line) "regex" ||
    strContains (strLower line) "format")

/-! ### Helper lemmas -/

theorem foldl_step_append {α β : Type} (step : List β → α → List β) (f : α → List β)
    (h : ∀ a x, step a x = a ++ f x) :
    ∀ (l : List α) (acc : List β), l.foldl step acc = acc ++ l.flatMap f := by
  intro l
  induction l with
  | nil => intro acc; simp
  | cons x t ih =>
    intro acc
    simp only [List.foldl_cons, List.flatMap_cons, ih, h, List.append_assoc]

theorem foldl_filter_map {α β : Type} (c : α → Bool) (g : α → β) :
    ∀ (l : List α) (acc : List β),
      l.foldl (fun a m => if c m then a else a ++ [g m]) acc =
        acc ++ (l.filter (fun m => !c m)).map g := by
  intro l
  induction l with
  | nil => intro acc; simp
  | cons m t ih =>
    intro acc
    cases hm : c m <;>
      simp [List.foldl_cons, List.filter_cons, hm, ih, List.append_assoc]

/-- The line loop of scan_file, re-expressed: the emitted violations are, in
catalog order, one per filter-accepted finditer occurrence of each rule, each
carrying the line number, the category and the message built from the matched
substring, appended after the accumulator. -/
theorem scan_line_eq (file_path : String) (line_num : Nat) (line : String)
    (acc : List Violation) :
    scan_line file_path line_num line acc = acc ++ phi_patterns.flatMap (fun cp =>
      cp.2.flatMap (fun pat =>
        ((finditer pat line).filter (fun m => !is_false_positive m line file_path)).map
          (fun m => (line_num, cp.1, "Potential " ++ cp.1 ++ ": " ++ m)))) := by
  unfold scan_line
  apply foldl_step_append
  intro a cp
  apply foldl_step_append
  intro a pat
  apply foldl_filter_map

/-- Filter test four fires on any line containing the literal characters \d,
so the filter reports a false positive whatever the earlier tests say. -/
theorem fp_of_backslash_d (mtch line file_path : String)
    (h : strContains line "\\d" = true) :
    is_false_positive mtch line file_path = true := by
  unfold is_false_positive
  split
  · rfl
  split
  · rfl
  split
  · rfl
  split
  · rfl
  rename_i h4
  simp [h] at h4

/-- Python rstrip returns a prefix of its input. -/
theorem pyRstrip_prefix_self : ∀ x : List Char, pyRstrip x <+: x := by
  intro x
  induction x with
  | nil => exact List.nil_prefix
  | cons c t ih =>
    show (match pyRstrip t with
      | [] => if isPyWhitespace c then [] else [c]
      | r => c :: r) <+: c :: t
    cases hr : pyRstrip t with
    | nil =>
      cases hw : isPyWhitespace c <;> simp [List.cons_prefix_cons]
    | cons r rs =>
      rw [hr] at ih
      simp [List.cons_prefix_cons, ih]

/-- Python rstrip slides over a wholly non-whitespace front block. -/
theorem pyRstrip_append (p : List Char) (hw : ∀ c ∈ p, isPyWhitespace c = false) :
    ∀ t : List Char, pyRstrip (p ++ t) = p ++ pyRstrip t := by
  induction p with
  | nil => intro t; rfl
  | cons c q ih =>
    intro t
    have hc : isPyWhitespace c = false := hw c (by simp)
    have hq : ∀ d ∈ q, isPyWhitespace d = false := fun d hd => hw d (by simp [hd])
    show (match pyRstrip (q ++ t) with
      | [] => if isPyWhitespace c then [] else [c]
      | r => c :: r) = c :: (q ++ pyRstrip t)
    rw [ih hq]
    cases hqt : q ++ pyRstrip t with
    | nil => simp [hc]
    | cons r rs => rfl

/-- A front block with no whitespace is kept by rstrip: such a block is a
prefix of a string exactly when it is a prefix of the string rstripped. -/
theorem prefix_pyRstrip (p x : List Char) (hw : ∀ c ∈ p, isPyWhitespace c = false) :
    p <+: pyRstrip x ↔ p <+: x := by
  constructor
  · intro h
    exact h.trans (pyRstrip_prefix_self x)
  · intro h
    obtain ⟨t, rfl⟩ := h
    rw [pyRstrip_append p hw t]
    exact List.prefix_append p (pyRstrip t)

/-- Testing a start of "//" or "#" cannot see trailing whitespace: on these
markers, startswith after strip agrees with startswith after lstrip alone. -/
theorem strip_startswith (line pre : String)
    (hw : ∀ c ∈ pre.data, isPyWhitespace c = false) :
    strStartswith (strStrip line) pre = strStartswith (strLstrip line) pre := by
  unfold strStartswith strStrip strLstrip
  rw [Bool.eq_iff_iff, List.isPrefixOf_iff_prefix, List.isPrefixOf_iff_prefix]
  exact prefix_pyRstrip pre.data (pyLstrip line.data) hw

/-! ### The claims -/

/-- C1: for every file identity, line number and line text, the line scan
emits, in catalog order, exactly one violation for each filter-accepted
non-overlapping case-insensitive occurrence of each rule of each category —
the violation carrying the matched substring inside the message
"Potential category: matchedText" together with the category name and the
line number — and no violation for any rejected or non-matching occurrence. -/
theorem c1_line_scan_one_violation_per_accepted_occurrence
    (file_path : String) (line_num : Nat) (line : String) (acc : List Violation) :
    scan_line file_path line_num line acc = acc ++ phi_patterns.flatMap (fun cp =>
      cp.2.flatMap (fun pat =>
        ((finditer pat line).filter (fun m => !is_false_positive m line file_path)).map
          (fun m => (line_num, cp.1, "Potential " ++ cp.1 ++ ": " ++ m)))) :=
  scan_line_eq file_path line_num line acc

/-- C4: a line containing the literal two-character sequence \d never yields
a violation: the scan of such a line adds nothing, whatever the file, the
line number and the rest of the line. -/
theorem c4_backslash_d_suppression_total
    (file_path : String) (line_num : Nat) (line : String) (acc : List Violation)
    (h : strContains line "\\d" = true) :
    scan_line file_path line_num line acc = acc := by
  rw [scan_line_eq]
  have hfp : ∀ m : String, (!is_false_positive m line file_path) = false := by
    intro m
    rw [fp_of_backslash_d m line file_path h]
    rfl
  have hnil : ∀ cp : String × List (List RItem),
      cp.2.flatMap (fun pat =>
        ((finditer pat line).filter (fun m => !is_false_positive m line file_path)).map
          (fun m => (line_num, cp.1, "Potential " ++ cp.1 ++ ": " ++ m))) = [] := by
    intro cp
    simp [hfp]
  simp [hnil]

/-- C4 witness: the rule-definition-like line of the specification's third
scenario, which contains \d, yields no violation. -/
theorem c4_witness :
    strContains "matches \\d digits" "\\d" = true ∧
    scan_line "phi_linter_rules.py" 3 "matches \\d digits" [] = [] :=
  ⟨by decide, c4_backslash_d_suppression_total "phi_linter_rules.py" 3
    "matches \\d digits" [] (by decide)⟩

/-- A cascade of boolean tests each returning true at once is the
disjunction of the tests. -/
theorem if_chain_or (a b c d e : Bool) :
    (if a then true else if b then true else if c then true else if d then true
     else if e then true else false) = (a || (b || (c || (d || e)))) := by
  cases a <;> cases b <;> cases c <;> cases d <;> cases e <;> rfl

/-- C2 counterexample: on the matched text "Config" in the line "Config" of a
file "a.yml", the filter of the source rejects (its third test lowercases the
matched text before the containment check), while the five conditions exactly
as the claim words them accept, so the claimed if-and-only-if fails here. -/
theorem c2_counterexample_condition_three_case :
    is_false_positive "Config" "Config" "a.yml" = true ∧
    fp_claimed "Config" "Config" "a.yml" = false := by
  constructor
  · decide
  · decide

/-- C2 amended: the filter is a pure function of the matched text, the line
and the file identity, rejecting exactly when one of the claim's five
conditions holds, with the third condition's containment of "config",
"example" or "template" tested case-insensitively on the lowercased matched
text. -/
theorem c2_filter_chain_amended (mtch line file_path : String) :
    is_false_positive mtch line file_path = fp_amended mtch line file_path := by
  unfold is_false_positive fp_amended comment_cond
  rw [strip_startswith line "//" (by decide), strip_startswith line "#" (by decide)]
  simp only [List.any_cons, List.any_nil, Bool.or_false, Bool.or_assoc]
  rw [if_chain_or]
  simp only [Bool.or_assoc]

/-- C10: the comment test of the filter fires exactly on lines that, stripped
of leading and trailing whitespace, start with "//" or with "#"; lines opening
other comment syntaxes are not rejected by it, and when it fires the filter
reports a false positive. -/
theorem c10_comment_heuristic_markers :
    (∀ line : String, comment_cond line =
      (strStartswith (strStrip line) "//" || strStartswith (strStrip line) "#")) ∧
    comment_cond "/* block comment */" = false ∧
    comment_cond "<!-- markup comment -->" = false ∧
    comment_cond "-- dashed comment" = false ∧
    (∀ mtch line file_path : String, comment_cond line = true →
      is_false_positive mtch line file_path = true) := by
  refine ⟨fun line => rfl, by decide, by decide, by decide, ?_⟩
  intro mtch line file_path h
  unfold is_false_positive
  simp [h]

/-- C10 witness: a slash-slash comment line after indentation is rejected. -/
theorem c10_witness :
    comment_cond "  // Patient data" = true ∧
    is_false_positive "Patient data" "  // Patient data" "Service.kt" = true :=
  ⟨by decide, c10_comment_heuristic_markers.2.2.2.2 "Patient data"
    "  // Patient data" "Service.kt" (by decide)⟩

/-- Violations one file of the tree contributes in scan_directory: none when
a skip test fires, otherwise its scan_file results, formatted. -/
def entry_violations (e : FSEntry) : List String :=
  if excluded_dirs.any (fun excluded => strContains e.path excluded) then []
  else if excluded_files.contains (path_name e.path) then []
  else if !(scanned_suffixes.contains (path_suffix e.path)) then []
  else (scan_file e.path e.content).map (fun v => format_violation e.path v)

/-- scan_directory decomposed: the prior accumulated state, then each file's
own contribution in traversal order. -/
theorem scan_directory_flat (entries : List FSEntry) (violations : List String) :
    scan_directory entries violations = violations ++ entries.flatMap entry_violations := by
  unfold scan_directory
  apply foldl_step_append
  intro a e
  unfold entry_violations
  repeat' split
  all_goals simp

/-- C3 counterexample: a run on a root directory that does not exist returns
exit code 1 while its violation count is 0, so the claimed law fails there. -/
theorem c3_counterexample_missing_root :
    ¬(((run false []).exit_code = 0) ↔ ((run false []).violations.length = 0)) := by
  decide

/-- C3 amended: the exit code of a run is 0 exactly when the root directory
exists and the run's violation count is 0. -/
theorem c3_exit_code_law_amended (root_exists : Bool) (entries : List FSEntry) :
    (run root_exists entries).exit_code = 0 ↔
      (root_exists = true ∧ (run root_exists entries).violations.length = 0) := by
  cases root_exists with
  | false => simp [run]
  | true =>
    simp only [run, Bool.not_true, Bool.false_eq_true, if_false, true_and]
    split
    · rename_i hne
      simp [List.length_eq_zero, hne]
    · rename_i hne
      simp only [not_not] at hne
      simp [hne]

/-- C5 counterexample: scanning the line "Patient ID: 48213" of Controller.kt
yields two violations, not exactly one — the medical_ids rule and the first
medical_terms rule both match. -/
theorem c5_counterexample_not_single :
    (scan_line "Controller.kt" 1 "Patient ID: 48213" []).length ≠ 1 := by
  decide

/-- C5 amended: scanning the line "Patient ID: 48213" of Controller.kt yields
exactly two violations, the first of category medical_ids with message
"Potential medical_ids: Patient ID: 48213", the second of category
medical_terms with message "Potential medical_terms: Patient ID". -/
theorem c5_patient_id_line_two_violations :
    scan_line "Controller.kt" 1 "Patient ID: 48213" [] =
      [(1, "medical_ids", "Potential medical_ids: Patient ID: 48213"),
       (1, "medical_terms", "Potential medical_terms: Patient ID")] := by
  decide

/-- C6: scanning is deterministic — two scans of the same entries, whatever
violation state each starts from, append identical violation sequences,
element for element and in order. -/
theorem c6_scan_deterministic (entries : List FSEntry) (v₁ v₂ : List String) :
    (scan_directory entries v₁).drop v₁.length =
      (scan_directory entries v₂).drop v₂.length := by
  rw [scan_directory_flat, scan_directory_flat, List.drop_left, List.drop_left]

/-- C7: with no accumulated violations the report is the single literal line;
with violations it is the header, one line per violation in aggregation
order, and the trailing total whose count is the number accumulated — and
every violation scan_directory aggregates is formatted "file:line - message"
from some scanned file's violation triple. -/
theorem c7_report_contract :
    generate_report [] = "No PHI violations detected.\n" ∧
    (∀ violations : List String, violations ≠ [] →
      generate_report violations =
        "PHI Violations Detected:\n" ++ String.mk (List.replicate 50 '=') ++ "\n\n" ++
          String.join (violations.map (fun v => v ++ "\n")) ++
          "\nTotal violations: " ++ toString violations.length ++ "\n") ∧
    (∀ (entries : List FSEntry) (s : String), s ∈ scan_directory entries [] →
      ∃ e ∈ entries, ∃ v ∈ scan_file e.path e.content, s = format_violation e.path v) := by
  refine ⟨rfl, ?_, ?_⟩
  · intro vs hvs
    unfold generate_report
    simp [hvs]
  · intro entries s hs
    rw [scan_directory_flat, List.nil_append, List.mem_flatMap] at hs
    obtain ⟨e, he, hse⟩ := hs
    refine ⟨e, he, ?_⟩
    unfold entry_violations at hse
    split at hse
    · simp at hse
    split at hse
    · simp at hse
    split at hse
    · simp at hse
    rw [List.mem_map] at hse
    obtain ⟨v, hv, rfl⟩ := hse
    exact ⟨v, hv, rfl⟩

/-- C7 witness: the report of one aggregated violation line. -/
theorem c7_witness :
    ((["App.kt:2 - Potential medical_ids: MRN: 7"] : List String) ≠ []) ∧
    generate_report ["App.kt:2 - Potential medical_ids: MRN: 7"] =
      "PHI Violations Detected:\n" ++ String.mk (List.replicate 50 '=') ++ "\n\n" ++
        String.join ((["App.kt:2 - Potential medical_ids: MRN: 7"] : List String).map
          (fun v => v ++ "\n")) ++
        "\nTotal violations: " ++
        toString (["App.kt:2 - Potential medical_ids: MRN: 7"] : List String).length ++ "\n" :=
  ⟨by decide, c7_report_contract.2.1 ["App.kt:2 - Potential medical_ids: MRN: 7"] (by decide)⟩

/-- C8: scan_file is a total function of the read outcome, and when opening
or reading the file fails it returns the violations gathered before the
failure — the empty list, the read being the first thing attempted. -/
theorem c8_scan_file_read_failure (file_path : String) (err : String) :
    scan_file file_path (Except.error err) = [] := rfl

/-- C9: the excluded-directory skip is a plain substring test on the whole
path — files whose path contains a token anywhere contribute nothing, so a
scan equals the scan of the entries with those files removed; in particular
the ordinary file name rebuild.kt contains the token "build", and such a
file is skipped even though its one line would otherwise be flagged. -/
theorem c9_excluded_dirs_substring_skip :
    (∀ (entries : List FSEntry) (violations : List String),
      scan_directory entries violations =
        scan_directory (entries.filter (fun e =>
          !excluded_dirs.any (fun excluded => strContains e.path excluded))) violations) ∧
    strContains "src/rebuild.kt" "build" = true ∧
    scan_file "src/rebuild.kt" (Except.ok ["MRN: 12345"]) ≠ [] ∧
    scan_directory [⟨"src/rebuild.kt", Except.ok ["MRN: 12345"]⟩] [] = [] := by
  refine ⟨?_, by decide, by decide, by decide⟩
  intro entries v
  rw [scan_directory_flat, scan_directory_flat]
  congr 1
  induction entries with
  | nil => rfl
  | cons e t ih =>
    rw [List.filter_cons]
    cases he : excluded_dirs.any (fun excluded => strContains e.path excluded) with
    | true =>
      have hnil : entry_violations e = [] := by
        unfold entry_violations
        simp [he]
      simp [he, hnil, ih]
    | false =>
      simp [he, ih]
